import Mathlib

/-!
Verification development for django-skd-smoke (skd_smoke/__init__.py).

The repository is a small Django test-generation helper: a configuration
validator (prepare_configuration), per-entry test-method and name/doc
builders (generate_test_method, prepare_test_name, prepare_test_method_doc),
and a metaclass hook (GenerateTestMethodsMeta.__new__) that attaches the
generated methods to subclasses of SmokeTestCase.

The Python values handled by the validator are modelled by the inductive
type PyVal below; Python exceptions by PyErr.  Fallible code returns
Except PyErr, and the single in-place mutation performed by the code
(list += on a length-3 list entry) is modelled by returning the post-state
of the input alongside the result.  Dictionary keys are modelled as
strings (the configuration dictionaries compared against the fixed option
key set are string-keyed).  uuid4().hex, a nondeterministic external, is
modelled as an explicit suffix parameter.
-/

/-- Model of the Python values that can appear in a tests configuration:
strings, ints, bools, None, tuples, lists, string-keyed dicts and opaque
callables (only their name is tracked). -/
inductive PyVal where
  | pstr (s : String)
  | pint (n : Int)
  | pbool (b : Bool)
  | pnone
  | ptuple (xs : List PyVal)
  | plist (xs : List PyVal)
  | pdict (kvs : List (String × PyVal))
  | pcallable (name : String)

/-- Model of the Python exceptions that the embedded code can raise:
django.core.exceptions.ImproperlyConfigured plus the builtin exceptions
reachable on malformed input. -/
inductive PyErr where
  | improperlyConfigured (msg : String)
  | typeError (msg : String)
  | attributeError (msg : String)
  | keyError (msg : String)
  | indexError (msg : String)
deriving DecidableEq

/-- A single apostrophe character, used by the Python type/value renderings. -/
def pyQuote : String := String.singleton (Char.ofNat 39)

/-- Python type(v) rendered with str(), as it appears in error messages. -/
def pyTypeRepr : PyVal → String
  | .pstr _ => "<class " ++ pyQuote ++ "str" ++ pyQuote ++ ">"
  | .pint _ => "<class " ++ pyQuote ++ "int" ++ pyQuote ++ ">"
  | .pbool _ => "<class " ++ pyQuote ++ "bool" ++ pyQuote ++ ">"
  | .pnone => "<class " ++ pyQuote ++ "NoneType" ++ pyQuote ++ ">"
  | .ptuple _ => "<class " ++ pyQuote ++ "tuple" ++ pyQuote ++ ">"
  | .plist _ => "<class " ++ pyQuote ++ "list" ++ pyQuote ++ ">"
  | .pdict _ => "<class " ++ pyQuote ++ "dict" ++ pyQuote ++ ">"
  | .pcallable _ => "<class " ++ pyQuote ++ "function" ++ pyQuote ++ ">"

mutual

/-- Python repr(v) (builtin rendering, external to the repository): quoted
strings, True/False/None, recursive tuple/list/dict forms; callables are
abbreviated (their CPython form embeds a memory address). -/
def pyRepr : PyVal → String
  | .pstr s => pyQuote ++ s ++ pyQuote
  | .pint n => toString n
  | .pbool b => if b then "True" else "False"
  | .pnone => "None"
  | .pcallable n => "<function " ++ n ++ ">"
  | .ptuple xs =>
      "(" ++ String.intercalate ", " (pyReprList xs) ++
        (if xs.length == 1 then ",)" else ")")
  | .plist xs => "[" ++ String.intercalate ", " (pyReprList xs) ++ "]"
  | .pdict kvs => "\x7b" ++ String.intercalate ", " (pyReprKVs kvs) ++ "\x7d"

/-- repr applied to each element of a list of values. -/
def pyReprList : List PyVal → List String
  | [] => []
  | v :: vs => pyRepr v :: pyReprList vs

/-- repr applied to each key/value pair of a dict. -/
def pyReprKVs : List (String × PyVal) → List String
  | [] => []
  | (k, v) :: kvs => (pyQuote ++ k ++ pyQuote ++ ": " ++ pyRepr v) :: pyReprKVs kvs

end

/-- Python str(v) (builtin): identity on strings, repr on everything else. -/
def pyStr : PyVal → String
  | .pstr s => s
  | v => pyRepr v

/-- Python str.lower, modelled character-wise (ASCII, matching the usage
on HTTP method names). -/
def pyLower (s : String) : String := String.mk (s.data.map Char.toLower)

/-- Python str.upper, modelled character-wise (ASCII). -/
def pyUpper (s : String) : String := String.mk (s.data.map Char.toUpper)

/-- isinstance(v, six.string_types). -/
def isString : PyVal → Bool
  | .pstr _ => true
  | _ => false

/-- isinstance(v, int); Python bools are ints. -/
def isInt : PyVal → Bool
  | .pint _ => true
  | .pbool _ => true
  | _ => false

/-- callable(v). -/
def isCallable : PyVal → Bool
  | .pcallable _ => true
  | _ => false

/-- Source dict_or_callable: isinstance(d, dict) or callable(d). -/
def dict_or_callable : PyVal → Bool
  | .pdict _ => true
  | .pcallable _ => true
  | d => isCallable d

/-- Python truthiness bool(v). -/
def pyTruthy : PyVal → Bool
  | .pnone => false
  | .pbool b => b
  | .pint n => decide (n ≠ 0)
  | .pstr s => !s.isEmpty
  | .ptuple xs => !xs.isEmpty
  | .plist xs => !xs.isEmpty
  | .pdict kvs => !kvs.isEmpty
  | .pcallable _ => true

/-- len(v) for the sized Python values; none models a TypeError. -/
def pyLen : PyVal → Option Nat
  | .pstr s => some s.data.length
  | .ptuple xs => some xs.length
  | .plist xs => some xs.length
  | .pdict kvs => some kvs.length
  | _ => none

/-- v[n] for a natural-number subscript: tuple/list/str index, KeyError on a
string-keyed dict, TypeError on unsubscriptable values. -/
def pyGetItem : PyVal → Nat → Except PyErr PyVal
  | .ptuple xs, n =>
      if h : n < xs.length then .ok (xs.get ⟨n, h⟩)
      else .error (.indexError "tuple index out of range")
  | .plist xs, n =>
      if h : n < xs.length then .ok (xs.get ⟨n, h⟩)
      else .error (.indexError "list index out of range")
  | .pstr s, n =>
      if h : n < s.data.length then .ok (.pstr (String.singleton (s.data.get ⟨n, h⟩)))
      else .error (.indexError "string index out of range")
  | .pdict _, n => .error (.keyError (toString n))
  | _, _ => .error (.typeError "object is not subscriptable")

/-- dict.get(k, None) on a string-keyed dict model (keys are unique in a
Python dict, so the first match is the binding). -/
def pdictGet (kvs : List (String × PyVal)) (k : String) : PyVal :=
  match kvs.find? (fun kv => kv.1 == k) with
  | some kv => kv.2
  | none => .pnone

/- Configuration error messages, transcribed from the source. -/

/-- IMPROPERLY_BUILT_CONFIGURATION_MSG from the source. -/
def IMPROPERLY_BUILT_CONFIGURATION_MSG : String :=
  "Every test method config should contain three or four elements (url, " ++
  "status, method, data=None)."

/-- EMPTY_TEST_CONFIGURATION_MSG from the source. -/
def EMPTY_TEST_CONFIGURATION_MSG : String :=
  "django-skd-smoke TestCase has empty TESTS_CONFIGURATION."

/-- INCORRECT_TEST_CONFIGURATION_MSG from the source. -/
def INCORRECT_TEST_CONFIGURATION_MSG : String :=
  "django-skd-smoke TestCase should define TESTS_CONFIGURATION list or " ++
  "tuple."

/-- UNSUPPORTED_CONFIGURATION_KEY_MSG % keys from the source. -/
def UNSUPPORTED_CONFIGURATION_KEY_MSG (keys : String) : String :=
  "django-skd-smoke configuration does not support those keys: " ++ keys ++ "."

/-- LINK_TO_DOCUMENTATION from the source. -/
def LINK_TO_DOCUMENTATION : String :=
  "For more information please review " ++
  "skd_smoke/tests.py or refer to project documentation on " ++
  "https://github.com/steelkiwi/django-skd-smoke#configuration."

/-- UNKNOWN_HTTP_METHOD_MSG % m from the source. -/
def UNKNOWN_HTTP_METHOD_MSG (m : String) : String :=
  "Your django-skd-smoke configuration defines unknown http method: \"" ++
  m ++ "\"."

/-- INCORRECT_REQUIRED_PARAM_TYPE_MSG % (name, idx, expected, actual, value)
from the source (all placeholders are %s). -/
def INCORRECT_REQUIRED_PARAM_TYPE_MSG
    (name idx expected actual value : String) : String :=
  "django-skd-smoke: Configuration parameter \"" ++ name ++ "\" with index=" ++
  idx ++ " should be " ++ expected ++ " but is " ++ actual ++
  " with next value: " ++ value ++ "."

/-- INCORRECT_NOT_REQUIRED_PARAM_TYPE_MSG % (key, expected, actual, value)
from the source. -/
def INCORRECT_NOT_REQUIRED_PARAM_TYPE_MSG
    (key expected actual value : String) : String :=
  "django-skd-smoke: Configuration parameter \"" ++ key ++ "\" should be " ++
  expected ++ " but is " ++ actual ++ " with next value: " ++ value ++ "."

/-- HTTP_METHODS from the source; note the misspelling detete. -/
def HTTP_METHODS : List String :=
  ["get", "post", "head", "options", "put", "patch", "detete", "trace"]

/-- Keys of NOT_REQUIRED_PARAM_TYPE_CHECK, in dict insertion order. -/
def NOT_REQUIRED_PARAM_KEYS : List String :=
  ["initialize", "url_kwargs", "request_data", "user_credentials"]

/-- The display_name fields of REQUIRED_PARAMS. -/
def REQUIRED_PARAM_NAME : Nat → String
  | 0 => "url"
  | 1 => "status"
  | 2 => "method"
  | _ => ""

/-- str() of the expected_type fields of REQUIRED_PARAMS: six.string_types
is the tuple (str,) under Python 3, int is the bare class. -/
def REQUIRED_PARAM_TYPE_STR : Nat → String
  | 0 => "(" ++ pyTypeRepr (.pstr "") ++ ",)"
  | 1 => pyTypeRepr (.pint 0)
  | 2 => "(" ++ pyTypeRepr (.pstr "") ++ ",)"
  | _ => ""

/-- The isinstance check of REQUIRED_PARAMS at each index. -/
def requiredParamCheck : Nat → PyVal → Bool
  | 0, v => isString v
  | 1, v => isInt v
  | 2, v => isString v
  | _, _ => true

/-- The type field of NOT_REQUIRED_PARAM_TYPE_CHECK for a given key. -/
def NOT_REQUIRED_PARAM_TYPE_STR (k : String) : String :=
  if k == "initialize" then "callable" else "dict or callable"

/-- The func field of NOT_REQUIRED_PARAM_TYPE_CHECK for a given key. -/
def notRequiredParamCheck (k : String) (v : PyVal) : Bool :=
  if k == "initialize" then isCallable v else dict_or_callable v

/-- append_doc_link from the source. -/
def append_doc_link (error_message : String) : String :=
  error_message ++ "\n" ++ LINK_TO_DOCUMENTATION

/-- Deduplication keeping first occurrences, for the set difference of
dict keys against the recognized option keys. -/
def dedupFirst : List String → List String
  | [] => []
  | k :: ks => if k ∈ ks then
      (if (dedupFirst ks).contains k then dedupFirst ks else k :: dedupFirst ks)
    else k :: dedupFirst ks

/-- set(d.keys()) - set(NOT_REQUIRED_PARAM_TYPE_CHECK.keys()): the entry
dict keys outside the recognized option key set (in dict order; the
iteration order of a Python set is unspecified, and dict keys are unique,
so this is one faithful linearization). -/
def unknown_keys (kvs : List (String × PyVal)) : List String :=
  dedupFirst ((kvs.map Prod.fst).filter (fun k => !(NOT_REQUIRED_PARAM_KEYS.contains k)))

/-- The error line appended for a mistyped required field at a given index. -/
def requiredParamLine (idx : Nat) (v : PyVal) : String :=
  INCORRECT_REQUIRED_PARAM_TYPE_MSG (REQUIRED_PARAM_NAME idx)
    (toString idx) (REQUIRED_PARAM_TYPE_STR idx) (pyTypeRepr v) (pyStr v)

/-- Enumeration of the sliced required params, accumulating one error line
per isinstance failure. -/
def required_param_errors_from : Nat → List PyVal → List String
  | _, [] => []
  | idx, v :: vs =>
    (if requiredParamCheck idx v then [] else [requiredParamLine idx v]) ++
      required_param_errors_from (idx + 1) vs

/-- The required-params loop of prepare_configuration: one formatted error
line per mistyped field among the first three (test_config[:3]), in index
order. -/
def required_param_errors (es : List PyVal) : List String :=
  required_param_errors_from 0 (es.take 3)

/-- The http-method check of prepare_configuration: an unknown-method error
line when field 2 is a string whose lower-casing is not in HTTP_METHODS. -/
def http_method_errors (es : List PyVal) : List String :=
  match es.getD 2 .pnone with
  | .pstr m => if HTTP_METHODS.contains (pyLower m) then []
      else [UNKNOWN_HTTP_METHOD_MSG m]
  | _ => []

/-- The optional-params loop of prepare_configuration: one formatted error
line per options value failing its predicate, in dict order; skipped when
check_dict is false (length-3 entries). -/
def optional_param_errors (check_dict : Bool) (es : List PyVal) : List String :=
  if check_dict then
    match es.getD 3 .pnone with
    | .pdict kvs => kvs.filterMap (fun kv =>
        if notRequiredParamCheck kv.1 kv.2 then none
        else some (INCORRECT_NOT_REQUIRED_PARAM_TYPE_MSG kv.1
          (NOT_REQUIRED_PARAM_TYPE_STR kv.1) (pyTypeRepr kv.2) (pyStr kv.2)))
    | _ => []
  else []

/-- All type_errors accumulated for one (already length-normalized) entry,
in source order: required params, then http method, then options values. -/
def entry_type_errors (es : List PyVal) (check_dict : Bool) : List String :=
  required_param_errors es ++ http_method_errors es ++
    optional_param_errors check_dict es

/-- The tail of the per-entry loop body of prepare_configuration: accumulate
type_errors over the normalized entry and raise ImproperlyConfigured with
the newline-joined lines plus LINK_TO_DOCUMENTATION, or accept the entry. -/
def checkEntry (tc : PyVal) (check_dict : Bool) : Except PyErr PyVal :=
  match tc with
  | .ptuple es =>
      if (entry_type_errors es check_dict).isEmpty then .ok tc
      else .error (.improperlyConfigured (String.intercalate "\n"
        (entry_type_errors es check_dict ++ [LINK_TO_DOCUMENTATION])))
  | .plist es =>
      if (entry_type_errors es check_dict).isEmpty then .ok tc
      else .error (.improperlyConfigured (String.intercalate "\n"
        (entry_type_errors es check_dict ++ [LINK_TO_DOCUMENTATION])))
  | _ => .error (.typeError "entry is not subscriptable")

/-- One iteration of the prepare_configuration loop over one entry (the
returned value or raised exception; the in-place effect on the entry is
modelled separately by prepareEntry_post).  test_config += (\x7b\x7d,)
extends a length-3 tuple or list with an empty dict; a length-3 entry of
any other sized type raises TypeError at +=, a length-4 entry whose fourth
element has no keys() raises AttributeError (KeyError when the entry is a
dict, whose subscript is a key lookup), and an unsized entry raises
TypeError at len(). -/
def prepareEntry (tc : PyVal) : Except PyErr PyVal :=
  match pyLen tc with
  | none => .error (.typeError "object of this type has no len()")
  | some n =>
    if n = 3 then
      match tc with
      | .ptuple xs => checkEntry (.ptuple (xs ++ [.pdict []])) false
      | .plist xs => checkEntry (.plist (xs ++ [.pdict []])) false
      | _ => .error (.typeError "unsupported operand types for +=")
    else if n = 4 then
      match pyGetItem tc 3 with
      | .error e => .error e
      | .ok third =>
        match third with
        | .pdict kvs =>
            if (unknown_keys kvs).isEmpty then checkEntry tc true
            else .error (.improperlyConfigured (append_doc_link
              (UNSUPPORTED_CONFIGURATION_KEY_MSG
                (String.intercalate ", " (unknown_keys kvs)))))
        | _ => .error (.attributeError "object has no attribute keys")
    else
      .error (.improperlyConfigured
        (append_doc_link IMPROPERLY_BUILT_CONFIGURATION_MSG))

/-- The post-state of one entry after its loop iteration: test_config +=
(\x7b\x7d,) on a length-3 list extends the list of the caller in place (before
the type checks run, so it persists even when the iteration raises); every
other entry is left as it was (tuples are rebuilt, not mutated). -/
def prepareEntry_post (tc : PyVal) : PyVal :=
  match tc with
  | .plist xs => if xs.length = 3 then .plist (xs ++ [.pdict []]) else tc
  | _ => tc

/-- The prepare_configuration loop over the configuration entries, stopping
at the first raised exception. -/
def prepareLoop : List PyVal → Except PyErr (List PyVal)
  | [] => .ok []
  | tc :: rest =>
    match prepareEntry tc with
    | .error e => .error e
    | .ok conf =>
      match prepareLoop rest with
      | .error e => .error e
      | .ok confs => .ok (conf :: confs)

/-- The post-state of the entries after the loop: every entry processed
before the loop raised (or all of them, on success) carries its in-place
extension; entries after the raise are untouched. -/
def prepareLoop_post : List PyVal → List PyVal
  | [] => []
  | tc :: rest =>
    match prepareEntry tc with
    | .error _ => prepareEntry_post tc :: rest
    | .ok _ => prepareEntry_post tc :: prepareLoop_post rest

/-- prepare_configuration from the source: validates and normalizes a
tests configuration, returning the confs list or the raised exception. -/
def prepare_configuration (tests_configuration : PyVal) :
    Except PyErr (List PyVal) :=
  match tests_configuration with
  | .ptuple xs =>
    match prepareLoop xs with
    | .error e => .error e
    | .ok confs =>
      if confs.isEmpty then
        .error (.improperlyConfigured (append_doc_link EMPTY_TEST_CONFIGURATION_MSG))
      else .ok confs
  | .plist xs =>
    match prepareLoop xs with
    | .error e => .error e
    | .ok confs =>
      if confs.isEmpty then
        .error (.improperlyConfigured (append_doc_link EMPTY_TEST_CONFIGURATION_MSG))
      else .ok confs
  | _ =>
    .error (.improperlyConfigured (append_doc_link INCORRECT_TEST_CONFIGURATION_MSG))

/-- The post-state of the configuration value after a prepare_configuration
call: its length-3 list entries processed by the loop have been extended in
place; everything else is unchanged. -/
def prepare_configuration_post (tests_configuration : PyVal) : PyVal :=
  match tests_configuration with
  | .ptuple xs => .ptuple (prepareLoop_post xs)
  | .plist xs => .plist (prepareLoop_post xs)
  | other => other

/-- The slug built by prepare_test_name, in source order: replace colons by
underscores, strip leading and trailing slashes, replace the remaining
slashes by underscores (all three are single-character string operations,
modelled on the character list). -/
def prepared_url_chars (l : List Char) : List Char :=
  let replaced := l.map (fun c => if c = ':' then '_' else c)
  let stripped := ((replaced.dropWhile (fun c => c = '/')).reverse.dropWhile
    (fun c => c = '/')).reverse
  stripped.map (fun c => if c = '/' then '_' else c)

/-- urlname.replace(":", "_").strip("/").replace("/", "_") from
prepare_test_name. -/
def prepared_url (urlname : String) : String :=
  String.mk (prepared_url_chars urlname.data)

/-- The name template of prepare_test_name without the trailing uuid:
test_smoke_%(url)s_%(method)s_%(status)s_ (the status is rendered with
str(), as the %s conversion does). -/
def test_name_stem (urlname method : String) (status : PyVal) : String :=
  "test_smoke_" ++ (prepared_url urlname ++ ("_" ++ (pyLower method ++
    ("_" ++ (pyStr status ++ "_")))))

/-- prepare_test_name from the source.  uuid4().hex is nondeterministic, so
the generated hex suffix is passed explicitly. -/
def prepare_test_name (urlname method : String) (status : PyVal)
    (uuid : String) : String :=
  test_name_stem urlname method status ++ uuid

/-- Modelled from the spec: the status-code-to-text table of the host web
framework (an external collaborator), "a fixed status-code-to-text table
(fallback UNKNOWN)"; a representative fragment suffices for the embedding. -/
def STATUS_CODE_TEXT_get (status : PyVal) : String :=
  match status with
  | .pint 200 => "OK"
  | .pint 201 => "CREATED"
  | .pint 301 => "MOVED PERMANENTLY"
  | .pint 302 => "FOUND"
  | .pint 404 => "NOT FOUND"
  | .pint 500 => "INTERNAL SERVER ERROR"
  | _ => "UNKNOWN"

/-- prepare_test_method_doc from the source: METHOD urlname status
"status text" data, where a callable data source is shown by its __name__
and a falsy one as the empty dict, rendered with %r. -/
def prepare_test_method_doc (method urlname : String) (status : PyVal)
    (status_text : String) (data : PyVal) : String :=
  let shown := match data with
    | .pcallable n => PyVal.pstr n
    | d => if pyTruthy d then d else .pdict []
  pyUpper method ++ " " ++ urlname ++ " " ++ pyStr status ++ " \"" ++
    status_text ++ "\" " ++ pyRepr shown

/-- The outcome of running one generated test method under the host test
framework: it passes, fails with a message, or errors. -/
inductive Outcome where
  | passed
  | failed (msg : String)
  | errored (e : PyErr)
deriving DecidableEq

/-- A test-case instance, opaque to the failsafe method (which ignores it
and only calls self.fail). -/
structure TestCaseInstance where
  tag : Nat

/-- generate_fail_test_method from the source: returns a method that calls
self.fail(exception_stacktrace) on any instance, i.e. always fails with
exactly the captured stacktrace. -/
def generate_fail_test_method (exception_stacktrace : String) :
    TestCaseInstance → Outcome :=
  fun _self => Outcome.failed exception_stacktrace

/-- A method attached to the class under construction: either the failsafe
produced by generate_fail_test_method, or a smoke test method produced by
generate_test_method (its captured arguments and docstring; its runtime
behaviour calls host collaborators and is outside the claims). -/
inductive GeneratedMethod where
  | fail_method (exception_stacktrace : String)
  | test_method (urlname status method init_hook url_kwargs request_data
      user_credentials : PyVal) (doc : String)

/-- Distinguishes generated smoke test methods from the failsafe method. -/
def GeneratedMethod.isSmoke : GeneratedMethod → Bool
  | .test_method .. => true
  | .fail_method _ => false

/-- The message carried by a Python exception value. -/
def pyErrMsg : PyErr → String
  | .improperlyConfigured m => m
  | .typeError m => m
  | .attributeError m => m
  | .keyError m => m
  | .indexError m => m

/-- The qualified exception name as printed on the last line of a
traceback. -/
def pyErrName : PyErr → String
  | .improperlyConfigured _ => "django.core.exceptions.ImproperlyConfigured"
  | .typeError _ => "TypeError"
  | .attributeError _ => "AttributeError"
  | .keyError _ => "KeyError"
  | .indexError _ => "IndexError"

/-- The part of traceback.format_exc() preceding the error detail (the
frame list, elided, and the exception name; format_exc is a Python stdlib
external, modelled up to its fixed shape). -/
def format_exc_prefix (e : PyErr) : String :=
  "Traceback (most recent call last):\n  ...\n" ++ pyErrName e ++ ": "

/-- traceback.format_exc() for the exception caught during class
construction: frame list, exception name, error detail, trailing newline. -/
def format_exc (e : PyErr) : String :=
  format_exc_prefix e ++ pyErrMsg e ++ "\n"

/-- FAIL_METHOD_NAME, the class attribute defined by SmokeTestCase (the
fixed naming convention for the failsafe method). -/
def FAIL_METHOD_NAME : String := "test_fail_cause_bad_configuration"

/-- A base class as seen by GenerateTestMethodsMeta.__new__: all that the
hook inspects is whether the base is itself an instance of the metaclass. -/
structure BaseCls where
  isMetaInstance : Bool

/-- The body of the generation loop for one validated entry: unpack it into
(urlname, status, method, data), build the test name (with the supplied
uuid hex) and the test method with its docstring.  A value of any other
shape cannot be unpacked this way (unreachable for validated entries). -/
def genOne (conf : PyVal) (uuid : String) :
    Except PyErr (String × GeneratedMethod) :=
  match conf with
  | .ptuple [.pstr urlname, status, .pstr method, .pdict data] =>
      .ok (prepare_test_name urlname method status uuid,
        .test_method (.pstr urlname) status (.pstr method)
          (pdictGet data "initialize") (pdictGet data "url_kwargs")
          (pdictGet data "request_data") (pdictGet data "user_credentials")
          (prepare_test_method_doc method urlname status
            (STATUS_CODE_TEXT_get status) (pdictGet data "request_data")))
  | .plist [.pstr urlname, status, .pstr method, .pdict data] =>
      .ok (prepare_test_name urlname method status uuid,
        .test_method (.pstr urlname) status (.pstr method)
          (pdictGet data "initialize") (pdictGet data "url_kwargs")
          (pdictGet data "request_data") (pdictGet data "user_credentials")
          (prepare_test_method_doc method urlname status
            (STATUS_CODE_TEXT_get status) (pdictGet data "request_data")))
  | _ => .error (.typeError "cannot unpack test configuration entry")

/-- The generation loop of GenerateTestMethodsMeta.__new__ over the
validated entries; the i-th entry receives the i-th generated uuid hex.
This loop runs in the else clause of the try statement, so an exception
raised here would propagate (none does for validated entries). -/
def genLoop : List PyVal → Nat → (Nat → String) →
    Except PyErr (List (String × GeneratedMethod))
  | [], _, _ => .ok []
  | c :: cs, i, uuidAt =>
    match genOne c (uuidAt i) with
    | .error e => .error e
    | .ok nm =>
      match genLoop cs (i + 1) uuidAt with
      | .error e => .error e
      | .ok rest => .ok (nm :: rest)

/-- GenerateTestMethodsMeta.__new__ from the source.  If no base class is
itself an instance of the metaclass the hook attaches nothing; otherwise it
validates cls.TESTS_CONFIGURATION, attaching either the generated methods
(one per validated entry) or, when validation raises, the single failsafe
method named FAIL_METHOD_NAME carrying the formatted traceback (the except
Exception clause catches every modelled exception).  Result: the attached
(name, method) pairs, or the exception a generation-loop failure would
propagate. -/
def GenerateTestMethodsMeta_new (bases : List BaseCls)
    (tests_configuration : PyVal) (uuidAt : Nat → String) :
    Except PyErr (List (String × GeneratedMethod)) :=
  if bases.any (fun b => b.isMetaInstance) then
    match prepare_configuration tests_configuration with
    | .error e => .ok [(FAIL_METHOD_NAME, .fail_method (format_exc e))]
    | .ok confs => genLoop confs 0 uuidAt
  else .ok []

/-- The bases of SmokeTestCase as the metaclass sees them: the django class
TestCase, which is not an instance of GenerateTestMethodsMeta. -/
def SmokeTestCase_bases : List BaseCls := [⟨false⟩]

/-- TESTS_CONFIGURATION = None, the default declared by SmokeTestCase. -/
def SmokeTestCase_TESTS_CONFIGURATION : PyVal := .pnone

/-- The normalized form of one configuration entry: a length-3 tuple or
list is extended with an empty options dict (keeping its own sequence
type), anything else is returned as it came. -/
def normalize_entry (tc : PyVal) : PyVal :=
  match tc with
  | .ptuple xs => if xs.length = 3 then .ptuple (xs ++ [.pdict []]) else tc
  | .plist xs => if xs.length = 3 then .plist (xs ++ [.pdict []]) else tc
  | _ => tc

/-- Shape of every entry that survives validation: a 4-element tuple or
list holding a string urlname, any status, a string method and a dict of
options. -/
def confShape (conf : PyVal) : Bool :=
  match conf with
  | .ptuple [.pstr _, _, .pstr _, .pdict _] => true
  | .plist [.pstr _, _, .pstr _, .pdict _] => true
  | _ => false

/-- The test-name stem the generation loop derives from a validated entry
(everything before the uuid hex suffix). -/
def conf_stem : PyVal → String
  | .ptuple (.pstr urlname :: status :: .pstr method :: _) =>
      test_name_stem urlname method status
  | .plist (.pstr urlname :: status :: .pstr method :: _) =>
      test_name_stem urlname method status
  | _ => ""

/-- The test method the generation loop builds from a validated entry. -/
def conf_meth : PyVal → GeneratedMethod
  | .ptuple [.pstr urlname, status, .pstr method, .pdict data] =>
      .test_method (.pstr urlname) status (.pstr method)
        (pdictGet data "initialize") (pdictGet data "url_kwargs")
        (pdictGet data "request_data") (pdictGet data "user_credentials")
        (prepare_test_method_doc method urlname status
          (STATUS_CODE_TEXT_get status) (pdictGet data "request_data"))
  | .plist [.pstr urlname, status, .pstr method, .pdict data] =>
      .test_method (.pstr urlname) status (.pstr method)
        (pdictGet data "initialize") (pdictGet data "url_kwargs")
        (pdictGet data "request_data") (pdictGet data "user_credentials")
        (prepare_test_method_doc method urlname status
          (STATUS_CODE_TEXT_get status) (pdictGet data "request_data"))
  | _ => .fail_method ""

/-- The (name, method) pairs the generation loop attaches for a list of
validated entries, entry k paired with uuid hex number i + k. -/
def genList : List PyVal → Nat → (Nat → String) → List (String × GeneratedMethod)
  | [], _, _ => []
  | c :: cs, i, uuidAt => (conf_stem c ++ uuidAt i, conf_meth c) :: genList cs (i + 1) uuidAt

/-- True when the result models a raised
django.core.exceptions.ImproperlyConfigured (and nothing else). -/
def isImproperFailure (r : Except PyErr (List PyVal)) : Bool :=
  match r with
  | .error (.improperlyConfigured _) => true
  | _ => false

/-- True when the validator returned normally. -/
def isOkResult (r : Except PyErr (List PyVal)) : Bool :=
  match r with
  | .ok _ => true
  | .error _ => false

/-- Entries of well-understood shape: tuples or lists whose fourth element,
when there is one, is a dict (so the diff-of-keys step has keys() to call).
Every failure cause enumerated by the specification lives inside this
shape. -/
def entryWellShaped (e : PyVal) : Bool :=
  match e with
  | .ptuple xs =>
      if xs.length = 4 then
        match xs.getD 3 .pnone with
        | .pdict _ => true
        | _ => false
      else true
  | .plist xs =>
      if xs.length = 4 then
        match xs.getD 3 .pnone with
        | .pdict _ => true
        | _ => false
      else true
  | _ => false

/-- Entries that the validator does not mutate in place: everything except
a length-3 list (list += tuple extends the list of the caller). -/
def notLen3List (e : PyVal) : Bool :=
  match e with
  | .plist xs => xs.length != 3
  | _ => true

/-- The elements of a tuple or list value. -/
def pyElems : PyVal → List PyVal
  | .ptuple xs => xs
  | .plist xs => xs
  | _ => []

/-- True for tuple and list values (isinstance(v, (tuple, list))). -/
def isSequence : PyVal → Bool
  | .ptuple _ => true
  | .plist _ => true
  | _ => false

/-- True when an entry-level result is a normal return or a raised
ImproperlyConfigured (the documented failure type), false for the builtin
exceptions. -/
def okOrImproper (r : Except PyErr PyVal) : Bool :=
  match r with
  | .ok _ => true
  | .error (.improperlyConfigured _) => true
  | _ => false

/-- True when a configuration-level result is a normal return or a raised
ImproperlyConfigured, false for the builtin exceptions. -/
def okOrImproperL (r : Except PyErr (List PyVal)) : Bool :=
  match r with
  | .ok _ => true
  | .error (.improperlyConfigured _) => true
  | _ => false

/-- A configuration all of whose entries are well-shaped in the sense of
entryWellShaped (vacuously true for non-sequences, which fail with the
documented incorrect-configuration error). -/
def configWellShaped (cfg : PyVal) : Bool :=
  match cfg with
  | .ptuple xs => xs.all entryWellShaped
  | .plist xs => xs.all entryWellShaped
  | _ => true

/-- A configuration none of whose entries is a length-3 list (the one
entry kind the validator extends in place). -/
def configNoLen3ListEntries (cfg : PyVal) : Bool :=
  match cfg with
  | .ptuple xs => xs.all notLen3List
  | .plist xs => xs.all notLen3List
  | _ => true

/-- The type_errors list the validator accumulates for one entry that
reaches the type-checking phase (after length normalization): the
length-3 entry is checked in its extended form with the options check
skipped, the length-4 entry as is with the options check enabled. -/
def entry_error_lines (entry : PyVal) : List String :=
  match entry with
  | .ptuple es =>
      if es.length = 3 then entry_type_errors (es ++ [.pdict []]) false
      else entry_type_errors es true
  | .plist es =>
      if es.length = 3 then entry_type_errors (es ++ [.pdict []]) false
      else entry_type_errors es true
  | _ => []

/-- The methods a class-construction result attaches ([] when the result
models a propagating exception). -/
def attachedMethods (r : Except PyErr (List (String × GeneratedMethod))) :
    List (String × GeneratedMethod) :=
  match r with
  | .ok ms => ms
  | .error _ => []

/-- True when class construction completed without an exception escaping. -/
def attachOk (r : Except PyErr (List (String × GeneratedMethod))) : Bool :=
  match r with
  | .ok _ => true
  | .error _ => false

/-- The slug of the generated test name as the specification words it:
leading and trailing slashes stripped, every (other) colon and slash
replaced with an underscore. -/
def slug_spec (urlname : String) : String :=
  String.mk ((((urlname.data.dropWhile (fun c => c = '/')).reverse.dropWhile
    (fun c => c = '/')).reverse).map
      (fun c => if c = ':' ∨ c = '/' then '_' else c))

/- Shared facts about the embedded validator. -/

theorem checkEntry_ok_eq {tc c : PyVal} {cd : Bool}
    (h : checkEntry tc cd = .ok c) : c = tc := by
  cases tc <;> simp only [checkEntry] at h
  all_goals first
    | (split at h <;> first
        | exact (Except.ok.inj h).symm
        | exact absurd h (by simp))
    | exact absurd h (by simp)

theorem checkEntry_ok_tuple_errors {es : List PyVal} {cd : Bool} {c : PyVal}
    (h : checkEntry (.ptuple es) cd = .ok c) : entry_type_errors es cd = [] := by
  by_cases he : (entry_type_errors es cd).isEmpty
  · simpa using he
  · simp [checkEntry, he] at h

theorem checkEntry_ok_list_errors {es : List PyVal} {cd : Bool} {c : PyVal}
    (h : checkEntry (.plist es) cd = .ok c) : entry_type_errors es cd = [] := by
  by_cases he : (entry_type_errors es cd).isEmpty
  · simpa using he
  · simp [checkEntry, he] at h

theorem required_empty_checks {u s m : PyVal} {rest : List PyVal}
    (h : required_param_errors (u :: s :: m :: rest) = []) :
    isString u = true ∧ isInt s = true ∧ isString m = true := by
  simp only [required_param_errors, List.take, required_param_errors_from] at h
  by_cases hu : requiredParamCheck 0 u <;>
    by_cases hs : requiredParamCheck 1 s <;>
      by_cases hm : requiredParamCheck 2 m <;>
        simp_all [requiredParamCheck]

theorem isString_exists {v : PyVal} (h : isString v = true) :
    ∃ s, v = .pstr s := by
  cases v <;> simp_all [isString]

theorem list_len_four {α : Type} {l : List α} (h : l.length = 4) :
    ∃ a b c d, l = [a, b, c, d] := by
  rcases l with _ | ⟨a, _ | ⟨b, _ | ⟨c, _ | ⟨d, _ | ⟨e, t⟩⟩⟩⟩⟩ <;>
    first
      | exact ⟨a, b, c, d, rfl⟩
      | simp_all

theorem prepareEntry_ok_normalize {tc c : PyVal}
    (h : prepareEntry tc = .ok c) : c = normalize_entry tc := by
  unfold prepareEntry at h
  repeat' split at h
  all_goals first
    | (have hc := checkEntry_ok_eq h
       simp_all [pyLen, pyGetItem, normalize_entry]
       done)
    | (have hc := checkEntry_ok_eq h
       cases tc <;> simp_all [pyLen, pyGetItem, normalize_entry]
       done)
    | exact absurd h (by simp [checkEntry])

theorem checkEntry_tuple_ok_shape {a b c3 : PyVal} {d : List (String × PyVal)}
    {cd : Bool} {c : PyVal}
    (h : checkEntry (.ptuple [a, b, c3, .pdict d]) cd = .ok c) :
    confShape c = true := by
  have hc := checkEntry_ok_eq h
  have herr := checkEntry_ok_tuple_errors h
  simp only [entry_type_errors, List.append_eq_nil] at herr
  obtain ⟨hu, hs, hm⟩ := required_empty_checks herr.1.1
  obtain ⟨s1, rfl⟩ := isString_exists hu
  obtain ⟨s2, rfl⟩ := isString_exists hm
  subst hc
  rfl

theorem checkEntry_list_ok_shape {a b c3 : PyVal} {d : List (String × PyVal)}
    {cd : Bool} {c : PyVal}
    (h : checkEntry (.plist [a, b, c3, .pdict d]) cd = .ok c) :
    confShape c = true := by
  have hc := checkEntry_ok_eq h
  have herr := checkEntry_ok_list_errors h
  simp only [entry_type_errors, List.append_eq_nil] at herr
  obtain ⟨hu, hs, hm⟩ := required_empty_checks herr.1.1
  obtain ⟨s1, rfl⟩ := isString_exists hu
  obtain ⟨s2, rfl⟩ := isString_exists hm
  subst hc
  rfl

theorem pyGetItem_pstr_not_dict {s : String} {n : Nat} {kvs : List (String × PyVal)} :
    pyGetItem (.pstr s) n ≠ .ok (.pdict kvs) := by
  simp only [pyGetItem]
  split <;> simp

theorem prepareEntry_ok_shape {tc c : PyVal}
    (h : prepareEntry tc = .ok c) : confShape c = true := by
  cases tc with
  | ptuple xs =>
    by_cases h3 : xs.length = 3
    · obtain ⟨a, b, c3, rfl⟩ := List.length_eq_three.mp h3
      simp only [prepareEntry, pyLen] at h
      norm_num at h
      exact checkEntry_tuple_ok_shape h
    · by_cases h4 : xs.length = 4
      · obtain ⟨a, b, c3, d, rfl⟩ := list_len_four h4
        simp only [prepareEntry, pyLen] at h
        norm_num [pyGetItem] at h
        cases d <;> simp_all
        split at h
        · exact checkEntry_tuple_ok_shape h
        · exact absurd h (by simp)
      · simp [prepareEntry, pyLen, h3, h4] at h
  | plist xs =>
    by_cases h3 : xs.length = 3
    · obtain ⟨a, b, c3, rfl⟩ := List.length_eq_three.mp h3
      simp only [prepareEntry, pyLen] at h
      norm_num at h
      exact checkEntry_list_ok_shape h
    · by_cases h4 : xs.length = 4
      · obtain ⟨a, b, c3, d, rfl⟩ := list_len_four h4
        simp only [prepareEntry, pyLen] at h
        norm_num [pyGetItem] at h
        cases d <;> simp_all
        split at h
        · exact checkEntry_list_ok_shape h
        · exact absurd h (by simp)
      · simp [prepareEntry, pyLen, h3, h4] at h
  | pstr s =>
      unfold prepareEntry at h
      repeat' split at h
      all_goals simp_all [pyGetItem_pstr_not_dict, checkEntry]
  | pdict kvs =>
      unfold prepareEntry at h
      repeat' split at h
      all_goals simp_all [pyGetItem, checkEntry]
  | pint n => simp [prepareEntry, pyLen] at h
  | pbool b => simp [prepareEntry, pyLen] at h
  | pnone => simp [prepareEntry, pyLen] at h
  | pcallable n => simp [prepareEntry, pyLen] at h

theorem prepareEntry_post_id {tc : PyVal} (h : notLen3List tc = true) :
    prepareEntry_post tc = tc := by
  cases tc <;> simp_all [notLen3List, prepareEntry_post]

theorem prepareLoop_ok_map {xs confs : List PyVal}
    (h : prepareLoop xs = .ok confs) : confs = xs.map normalize_entry := by
  induction xs generalizing confs with
  | nil =>
      simp only [prepareLoop] at h
      simp [← Except.ok.inj h]
  | cons tc rest ih =>
    cases hpe : prepareEntry tc with
    | error e => simp [prepareLoop, hpe] at h
    | ok conf =>
      cases hpl : prepareLoop rest with
      | error e => simp [prepareLoop, hpe, hpl] at h
      | ok confs2 =>
        simp only [prepareLoop, hpe, hpl] at h
        have hcons := Except.ok.inj h
        subst hcons
        simp [List.map_cons, prepareEntry_ok_normalize hpe, ih hpl]

theorem prepareLoop_ok_shape {xs confs : List PyVal}
    (h : prepareLoop xs = .ok confs) : ∀ c ∈ confs, confShape c = true := by
  induction xs generalizing confs with
  | nil =>
      simp only [prepareLoop] at h
      simp [← Except.ok.inj h]
  | cons tc rest ih =>
    cases hpe : prepareEntry tc with
    | error e => simp [prepareLoop, hpe] at h
    | ok conf =>
      cases hpl : prepareLoop rest with
      | error e => simp [prepareLoop, hpe, hpl] at h
      | ok confs2 =>
        simp only [prepareLoop, hpe, hpl] at h
        have hcons := Except.ok.inj h
        subst hcons
        intro c hc
        rcases List.mem_cons.mp hc with rfl | hmem
        · exact prepareEntry_ok_shape hpe
        · exact ih hpl c hmem

theorem prepareLoop_post_id {xs : List PyVal}
    (h : ∀ e ∈ xs, notLen3List e = true) : prepareLoop_post xs = xs := by
  induction xs with
  | nil => rfl
  | cons tc rest ih =>
    have h1 := prepareEntry_post_id (h tc (by simp))
    cases hpe : prepareEntry tc with
    | error e => simp [prepareLoop_post, hpe, h1]
    | ok conf =>
        simp [prepareLoop_post, hpe, h1, ih (fun e he => h e (by simp [he]))]

theorem checkEntry_tuple_okOrImproper (es : List PyVal) (cd : Bool) :
    okOrImproper (checkEntry (.ptuple es) cd) = true := by
  by_cases he : (entry_type_errors es cd).isEmpty <;>
    simp [checkEntry, he, okOrImproper]

theorem checkEntry_list_okOrImproper (es : List PyVal) (cd : Bool) :
    okOrImproper (checkEntry (.plist es) cd) = true := by
  by_cases he : (entry_type_errors es cd).isEmpty <;>
    simp [checkEntry, he, okOrImproper]

theorem prepareEntry_wellshaped {tc : PyVal} (hw : entryWellShaped tc = true) :
    okOrImproper (prepareEntry tc) = true := by
  cases tc with
  | ptuple xs =>
    by_cases h3 : xs.length = 3
    · simp only [prepareEntry, pyLen, h3]
      norm_num
      exact checkEntry_tuple_okOrImproper _ _
    · by_cases h4 : xs.length = 4
      · obtain ⟨a, b, c3, d, rfl⟩ := list_len_four h4
        simp only [entryWellShaped] at hw
        norm_num [List.getD] at hw
        cases d <;> simp_all
        simp only [prepareEntry, pyLen]
        norm_num [pyGetItem]
        split
        · exact checkEntry_tuple_okOrImproper _ _
        · simp [okOrImproper]
      · simp [prepareEntry, pyLen, h3, h4, okOrImproper]
  | plist xs =>
    by_cases h3 : xs.length = 3
    · simp only [prepareEntry, pyLen, h3]
      norm_num
      exact checkEntry_list_okOrImproper _ _
    · by_cases h4 : xs.length = 4
      · obtain ⟨a, b, c3, d, rfl⟩ := list_len_four h4
        simp only [entryWellShaped] at hw
        norm_num [List.getD] at hw
        cases d <;> simp_all
        simp only [prepareEntry, pyLen]
        norm_num [pyGetItem]
        split
        · exact checkEntry_list_okOrImproper _ _
        · simp [okOrImproper]
      · simp [prepareEntry, pyLen, h3, h4, okOrImproper]
  | pstr s => simp [entryWellShaped] at hw
  | pdict kvs => simp [entryWellShaped] at hw
  | pint n => simp [entryWellShaped] at hw
  | pbool b => simp [entryWellShaped] at hw
  | pnone => simp [entryWellShaped] at hw
  | pcallable n => simp [entryWellShaped] at hw

theorem prepareLoop_wellshaped {xs : List PyVal}
    (h : ∀ e ∈ xs, entryWellShaped e = true) :
    okOrImproperL (prepareLoop xs) = true := by
  induction xs with
  | nil => rfl
  | cons tc rest ih =>
    have htc := prepareEntry_wellshaped (h tc (by simp))
    cases hpe : prepareEntry tc with
    | error e =>
        rw [hpe] at htc
        cases e <;> simp_all [prepareLoop, hpe, okOrImproper, okOrImproperL]
    | ok conf =>
      have hr := ih (fun e he => h e (by simp [he]))
      cases hpl : prepareLoop rest with
      | error e =>
          rw [hpl] at hr
          cases e <;> simp_all [prepareLoop, okOrImproper, okOrImproperL]
      | ok confs => simp [prepareLoop, hpe, hpl, okOrImproperL]

theorem prepare_configuration_wellshaped {cfg : PyVal}
    (h : configWellShaped cfg = true) :
    okOrImproperL (prepare_configuration cfg) = true := by
  cases cfg with
  | ptuple xs =>
      have hall : ∀ e ∈ xs, entryWellShaped e = true := by
        simpa [configWellShaped, List.all_eq_true] using h
      have hl := prepareLoop_wellshaped hall
      cases hpl : prepareLoop xs with
      | error e =>
          rw [hpl] at hl
          cases e <;> simp_all [prepare_configuration, okOrImproperL]
      | ok confs =>
          by_cases hc : confs.isEmpty <;>
            simp [prepare_configuration, hpl, hc, okOrImproperL]
  | plist xs =>
      have hall : ∀ e ∈ xs, entryWellShaped e = true := by
        simpa [configWellShaped, List.all_eq_true] using h
      have hl := prepareLoop_wellshaped hall
      cases hpl : prepareLoop xs with
      | error e =>
          rw [hpl] at hl
          cases e <;> simp_all [prepare_configuration, okOrImproperL]
      | ok confs =>
          by_cases hc : confs.isEmpty <;>
            simp [prepare_configuration, hpl, hc, okOrImproperL]
  | pstr s => simp [prepare_configuration, okOrImproperL]
  | pdict kvs => simp [prepare_configuration, okOrImproperL]
  | pint n => simp [prepare_configuration, okOrImproperL]
  | pbool b => simp [prepare_configuration, okOrImproperL]
  | pnone => simp [prepare_configuration, okOrImproperL]
  | pcallable n => simp [prepare_configuration, okOrImproperL]

theorem prepare_configuration_post_id {cfg : PyVal}
    (h : configNoLen3ListEntries cfg = true) :
    prepare_configuration_post cfg = cfg := by
  cases cfg with
  | ptuple xs =>
      have hall : ∀ e ∈ xs, notLen3List e = true := by
        simpa [configNoLen3ListEntries, List.all_eq_true] using h
      simp [prepare_configuration_post, prepareLoop_post_id hall]
  | plist xs =>
      have hall : ∀ e ∈ xs, notLen3List e = true := by
        simpa [configNoLen3ListEntries, List.all_eq_true] using h
      simp [prepare_configuration_post, prepareLoop_post_id hall]
  | pstr s => rfl
  | pdict kvs => rfl
  | pint n => rfl
  | pbool b => rfl
  | pnone => rfl
  | pcallable n => rfl

theorem prepare_configuration_ok_map {cfg : PyVal} {confs : List PyVal}
    (h : prepare_configuration cfg = .ok confs) :
    isSequence cfg = true ∧ confs = (pyElems cfg).map normalize_entry ∧
      confs ≠ [] := by
  cases cfg with
  | ptuple xs =>
    cases hpl : prepareLoop xs with
    | error e => simp [prepare_configuration, hpl] at h
    | ok confs2 =>
      by_cases hc : confs2.isEmpty
      · simp [prepare_configuration, hpl, hc] at h
      · simp only [prepare_configuration, hpl, hc, if_neg, Bool.false_eq_true,
          not_false_eq_true] at h
        have hh := Except.ok.inj h
        subst hh
        exact ⟨rfl, prepareLoop_ok_map hpl, by simpa using hc⟩
  | plist xs =>
    cases hpl : prepareLoop xs with
    | error e => simp [prepare_configuration, hpl] at h
    | ok confs2 =>
      by_cases hc : confs2.isEmpty
      · simp [prepare_configuration, hpl, hc] at h
      · simp only [prepare_configuration, hpl, hc, if_neg, Bool.false_eq_true,
          not_false_eq_true] at h
        have hh := Except.ok.inj h
        subst hh
        exact ⟨rfl, prepareLoop_ok_map hpl, by simpa using hc⟩
  | pstr s => simp [prepare_configuration] at h
  | pdict kvs => simp [prepare_configuration] at h
  | pint n => simp [prepare_configuration] at h
  | pbool b => simp [prepare_configuration] at h
  | pnone => simp [prepare_configuration] at h
  | pcallable n => simp [prepare_configuration] at h

theorem prepare_configuration_ok_shape {cfg : PyVal} {confs : List PyVal}
    (h : prepare_configuration cfg = .ok confs) :
    ∀ c ∈ confs, confShape c = true := by
  cases cfg with
  | ptuple xs =>
    cases hpl : prepareLoop xs with
    | error e => simp [prepare_configuration, hpl] at h
    | ok confs2 =>
      by_cases hc : confs2.isEmpty
      · simp [prepare_configuration, hpl, hc] at h
      · simp only [prepare_configuration, hpl, hc, if_neg, Bool.false_eq_true,
          not_false_eq_true] at h
        have hh := Except.ok.inj h
        subst hh
        exact prepareLoop_ok_shape hpl
  | plist xs =>
    cases hpl : prepareLoop xs with
    | error e => simp [prepare_configuration, hpl] at h
    | ok confs2 =>
      by_cases hc : confs2.isEmpty
      · simp [prepare_configuration, hpl, hc] at h
      · simp only [prepare_configuration, hpl, hc, if_neg, Bool.false_eq_true,
          not_false_eq_true] at h
        have hh := Except.ok.inj h
        subst hh
        exact prepareLoop_ok_shape hpl
  | pstr s => simp [prepare_configuration] at h
  | pdict kvs => simp [prepare_configuration] at h
  | pint n => simp [prepare_configuration] at h
  | pbool b => simp [prepare_configuration] at h
  | pnone => simp [prepare_configuration] at h
  | pcallable n => simp [prepare_configuration] at h

theorem genOne_shape {c : PyVal} (hc : confShape c = true) (u : String) :
    genOne c u = .ok (conf_stem c ++ u, conf_meth c) := by
  unfold confShape at hc
  split at hc
  · rfl
  · rfl
  · simp at hc

theorem genLoop_eq_genList {confs : List PyVal}
    (h : ∀ c ∈ confs, confShape c = true) (i : Nat) (uuidAt : Nat → String) :
    genLoop confs i uuidAt = .ok (genList confs i uuidAt) := by
  induction confs generalizing i with
  | nil => rfl
  | cons c cs ih =>
      simp [genLoop, genList, genOne_shape (h c (by simp)),
        ih (fun c hc => h c (by simp [hc]))]

theorem genList_length (confs : List PyVal) (i : Nat) (uuidAt : Nat → String) :
    (genList confs i uuidAt).length = confs.length := by
  induction confs generalizing i with
  | nil => rfl
  | cons c cs ih => simp [genList, ih]

theorem genList_getElem? (confs : List PyVal) (i : Nat) (uuidAt : Nat → String)
    (k : Nat) :
    (genList confs i uuidAt)[k]? =
      (confs[k]?).map (fun c => (conf_stem c ++ uuidAt (i + k), conf_meth c)) := by
  induction confs generalizing i k with
  | nil => simp [genList]
  | cons c cs ih =>
      cases k with
      | zero => simp [genList]
      | succ k =>
          have hik : i + (k + 1) = (i + 1) + k := by omega
          simp only [genList, List.getElem?_cons_succ]
          rw [hik]
          exact ih (i + 1) k

theorem conf_stem_prefix {c : PyVal} (hc : confShape c = true) :
    ∃ r, conf_stem c = "test_smoke_" ++ r := by
  unfold confShape at hc
  split at hc
  · exact ⟨_, rfl⟩
  · exact ⟨_, rfl⟩
  · simp at hc

theorem test_smoke_ne_fail (r u : String) :
    ("test_smoke_" ++ r) ++ u ≠ FAIL_METHOD_NAME := by
  intro h
  have hd : "test_smoke_".data ++ (r.data ++ u.data) = FAIL_METHOD_NAME.data := by
    have h0 := congrArg String.data h
    have h1 : (("test_smoke_" ++ r) ++ u).data =
        "test_smoke_".data ++ (r.data ++ u.data) := by
      simp [List.append_assoc]
    rw [h1] at h0
    exact h0
  have h11 := congrArg (List.take 11) hd
  rw [show (11 : Nat) = ("test_smoke_".data).length from rfl, List.take_left] at h11
  exact absurd h11 (by decide)

theorem genList_all_smoke {confs : List PyVal}
    (h : ∀ c ∈ confs, confShape c = true) (i : Nat) (uuidAt : Nat → String) :
    ∀ nm ∈ genList confs i uuidAt,
      nm.2.isSmoke = true ∧ nm.1 ≠ FAIL_METHOD_NAME := by
  induction confs generalizing i with
  | nil => simp [genList]
  | cons c cs ih =>
      intro nm hnm
      rcases List.mem_cons.mp hnm with rfl | hmem
      · constructor
        · have hc := h c (by simp)
          unfold confShape at hc
          split at hc
          · rfl
          · rfl
          · simp at hc
        · have hc := h c (by simp)
          obtain ⟨r, hr⟩ := conf_stem_prefix hc
          simp only [hr]
          exact test_smoke_ne_fail r _
      · exact ih (fun c hc => h c (by simp [hc])) (i + 1) nm hmem

theorem append_left_cancel_str {a s t : String} (h : a ++ s = a ++ t) : s = t := by
  have hd : a.data ++ s.data = a.data ++ t.data := congrArg String.data h
  exact String.ext (List.append_cancel_left hd)

theorem append_suffix_inj {a b s t : String} (h : a ++ s = b ++ t)
    (hl : s.length = t.length) : s = t := by
  have hd : a.data ++ s.data = b.data ++ t.data := congrArg String.data h
  have hlen : s.data.length = t.data.length := hl
  exact String.ext (List.append_inj' hd hlen).2

theorem genList_names_nodup {confs : List PyVal} (uuidAt : Nat → String)
    (h1 : ∀ j k, j < confs.length → k < confs.length → j ≠ k →
      uuidAt j ≠ uuidAt k)
    (h2 : ∀ j, j < confs.length → (uuidAt j).length = 32) :
    ((genList confs 0 uuidAt).map Prod.fst).Nodup := by
  rw [List.nodup_iff_injective_get]
  intro a b hab
  have hlen : ((genList confs 0 uuidAt).map Prod.fst).length = confs.length := by
    simp [genList_length]
  have ha : a.1 < confs.length := by rw [← hlen]; exact a.2
  have hb : b.1 < confs.length := by rw [← hlen]; exact b.2
  have hga : a.1 < (genList confs 0 uuidAt).length := by
    rw [genList_length]; exact ha
  have hgb : b.1 < (genList confs 0 uuidAt).length := by
    rw [genList_length]; exact hb
  have hva : (genList confs 0 uuidAt)[a.1] =
      (conf_stem confs[a.1] ++ uuidAt a.1, conf_meth confs[a.1]) := by
    have h0 := genList_getElem? confs 0 uuidAt a.1
    rw [List.getElem?_eq_getElem hga, List.getElem?_eq_getElem ha] at h0
    simpa using h0
  have hvb : (genList confs 0 uuidAt)[b.1] =
      (conf_stem confs[b.1] ++ uuidAt b.1, conf_meth confs[b.1]) := by
    have h0 := genList_getElem? confs 0 uuidAt b.1
    rw [List.getElem?_eq_getElem hgb, List.getElem?_eq_getElem hb] at h0
    simpa using h0
  have hnames : conf_stem confs[a.1] ++ uuidAt a.1 =
      conf_stem confs[b.1] ++ uuidAt b.1 := by
    have := hab
    simp only [List.get_eq_getElem, List.getElem_map] at this
    rw [hva, hvb] at this
    exact this
  have huuid : uuidAt a.1 = uuidAt b.1 :=
    append_suffix_inj hnames (by rw [h2 a.1 ha, h2 b.1 hb])
  have hidx : a.1 = b.1 := by
    by_contra hne
    exact h1 a.1 b.1 ha hb hne huuid
  exact Fin.ext hidx

theorem dropWhile_map_comm (f : Char → Char) (p : Char → Bool)
    (hf : ∀ c, p (f c) = p c) (l : List Char) :
    (l.map f).dropWhile p = (l.dropWhile p).map f := by
  induction l with
  | nil => rfl
  | cons c cs ih =>
    by_cases hc : p c = true
    · simp [List.dropWhile_cons, hf, hc, ih]
    · simp [List.dropWhile_cons, hf, hc]

theorem prepared_url_chars_eq (l : List Char) :
    prepared_url_chars l =
      (((l.dropWhile (fun c => c = '/')).reverse.dropWhile
          (fun c => c = '/')).reverse).map
        (fun c => if c = ':' ∨ c = '/' then '_' else c) := by
  have hf : ∀ c, (fun c => decide (c = '/'))
      ((fun c => if c = ':' then '_' else c) c) =
      (fun c => decide (c = '/')) c := by
    intro c
    by_cases hc : c = ':' <;> simp [hc]
  unfold prepared_url_chars
  dsimp only
  rw [dropWhile_map_comm _ _ hf l]
  rw [← List.map_reverse]
  rw [dropWhile_map_comm _ _ hf]
  rw [← List.map_reverse]
  rw [List.map_map]
  congr 1
  funext c
  by_cases h1 : c = ':' <;> by_cases h2 : c = '/' <;>
    simp [h1, h2, Function.comp]

theorem prepared_url_eq_slug_spec (u : String) : prepared_url u = slug_spec u :=
  congrArg String.mk (prepared_url_chars_eq u.data)

theorem required_param_errors_cons (u s m : PyVal) (rest : List PyVal) :
    required_param_errors (u :: s :: m :: rest) =
      (if isString u then [] else [requiredParamLine 0 u]) ++
      ((if isInt s then [] else [requiredParamLine 1 s]) ++
       (if isString m then [] else [requiredParamLine 2 m])) := by
  simp only [required_param_errors, List.take, required_param_errors_from,
    requiredParamCheck, List.append_nil, List.append_assoc]

theorem http_method_errors_cons (u s m : PyVal) (rest : List PyVal) :
    http_method_errors (u :: s :: m :: rest) =
      match m with
      | .pstr ms =>
          if HTTP_METHODS.contains (pyLower ms) then []
          else [UNKNOWN_HTTP_METHOD_MSG ms]
      | _ => [] := rfl

theorem entry_type_errors_mem_facts (u s m : PyVal) (rest : List PyVal)
    (cd : Bool) :
    (isString u = false →
      requiredParamLine 0 u ∈ entry_type_errors (u :: s :: m :: rest) cd) ∧
    (isInt s = false →
      requiredParamLine 1 s ∈ entry_type_errors (u :: s :: m :: rest) cd) ∧
    (isString m = false →
      requiredParamLine 2 m ∈ entry_type_errors (u :: s :: m :: rest) cd) ∧
    (∀ ms, m = .pstr ms → HTTP_METHODS.contains (pyLower ms) = false →
      UNKNOWN_HTTP_METHOD_MSG ms ∈ entry_type_errors (u :: s :: m :: rest) cd) := by
  refine ⟨?_, ?_, ?_, ?_⟩
  · intro h
    simp [entry_type_errors, required_param_errors_cons, h]
  · intro h
    simp [entry_type_errors, required_param_errors_cons, h]
  · intro h
    simp [entry_type_errors, required_param_errors_cons, h]
  · intro ms hm h
    subst hm
    have h2 : pyLower ms ∉ HTTP_METHODS := by simpa using h
    simp [entry_type_errors, http_method_errors_cons, h2]

theorem prepare_single_entry_error {entry : PyVal} {e : PyErr}
    (hpe : prepareEntry entry = .error e) :
    prepare_configuration (.plist [entry]) = .error e := by
  simp [prepare_configuration, prepareLoop, hpe]

theorem prepareEntry_tuple3 (u s m : PyVal) :
    prepareEntry (.ptuple [u, s, m]) =
      checkEntry (.ptuple [u, s, m, .pdict []]) false := rfl

theorem prepareEntry_list3 (u s m : PyVal) :
    prepareEntry (.plist [u, s, m]) =
      checkEntry (.plist [u, s, m, .pdict []]) false := rfl

theorem prepareEntry_tuple4 (u s m : PyVal) (kvs : List (String × PyVal))
    (hk : unknown_keys kvs = []) :
    prepareEntry (.ptuple [u, s, m, .pdict kvs]) =
      checkEntry (.ptuple [u, s, m, .pdict kvs]) true := by
  have h34 : pyGetItem (.ptuple [u, s, m, .pdict kvs]) 3 = .ok (.pdict kvs) := rfl
  simp [prepareEntry, pyLen, h34, hk]

theorem prepareEntry_list4 (u s m : PyVal) (kvs : List (String × PyVal))
    (hk : unknown_keys kvs = []) :
    prepareEntry (.plist [u, s, m, .pdict kvs]) =
      checkEntry (.plist [u, s, m, .pdict kvs]) true := by
  have h34 : pyGetItem (.plist [u, s, m, .pdict kvs]) 3 = .ok (.pdict kvs) := rfl
  simp [prepareEntry, pyLen, h34, hk]

theorem checkEntry_tuple_error_of_ne {es : List PyVal} {cd : Bool}
    (h : entry_type_errors es cd ≠ []) :
    checkEntry (.ptuple es) cd = .error (.improperlyConfigured
      (String.intercalate "\n"
        (entry_type_errors es cd ++ [LINK_TO_DOCUMENTATION]))) := by
  simp [checkEntry, h]

theorem checkEntry_list_error_of_ne {es : List PyVal} {cd : Bool}
    (h : entry_type_errors es cd ≠ []) :
    checkEntry (.plist es) cd = .error (.improperlyConfigured
      (String.intercalate "\n"
        (entry_type_errors es cd ++ [LINK_TO_DOCUMENTATION]))) := by
  simp [checkEntry, h]

/- The claim theorems. -/

/-- C3 counterexample: prepare_configuration does not always fail with the
single ImproperlyConfigured exception type: a 4-element entry whose options
field is the int 5 makes it raise AttributeError at test_config[3].keys(). -/
theorem C3_counterexample :
    prepare_configuration
        (.plist [.ptuple [.pstr "home", .pint 200, .pstr "get", .pint 5]]) =
      .error (.attributeError "object has no attribute keys") ∧
    isImproperFailure (prepare_configuration
        (.plist [.ptuple [.pstr "home", .pint 200, .pstr "get", .pint 5]])) =
      false ∧
    isOkResult (prepare_configuration
        (.plist [.ptuple [.pstr "home", .pint 200, .pstr "get", .pint 5]])) =
      false :=
  ⟨rfl, rfl, rfl⟩

/-- C3 (amended): for every input whose entries are all tuples or lists
with a mapping in the options slot when they have one (the shape within
which all of the enumerated failure causes live: non-sequence input, wrong
entry length, unrecognized option key, mistyped required field,
unrecognized method, failing optional-field predicate, empty result),
prepare_configuration either returns normally or raises the single
ImproperlyConfigured exception type, never any other exception; outside
that shape builtin exceptions (TypeError, AttributeError, KeyError) escape. -/
theorem C3_amended_wellshaped_failures_improper (cfg : PyVal)
    (h : configWellShaped cfg = true) :
    okOrImproperL (prepare_configuration cfg) = true :=
  prepare_configuration_wellshaped h

/-- C3 witness: a well-shaped failing input (unknown http method) raises
ImproperlyConfigured. -/
theorem C3_amended_witness :
    configWellShaped (.plist [.ptuple [.pstr "home", .pint 200, .pstr "XYZ"]]) =
      true ∧
    okOrImproperL (prepare_configuration
      (.plist [.ptuple [.pstr "home", .pint 200, .pstr "XYZ"]])) = true :=
  ⟨rfl, C3_amended_wellshaped_failures_improper _ rfl⟩

/-- C5 counterexample: prepare_configuration is not free of side effects on
its input: a length-3 list entry is extended in place with the empty
options dict (the call itself succeeds). -/
theorem C5_counterexample :
    prepare_configuration_post
        (.plist [.plist [.pstr "home", .pint 200, .pstr "get"]]) =
      .plist [.plist [.pstr "home", .pint 200, .pstr "get", .pdict []]] ∧
    prepare_configuration_post
        (.plist [.plist [.pstr "home", .pint 200, .pstr "get"]]) ≠
      .plist [.plist [.pstr "home", .pint 200, .pstr "get"]] ∧
    isOkResult (prepare_configuration
      (.plist [.plist [.pstr "home", .pint 200, .pstr "get"]])) = true := by
  refine ⟨rfl, ?_, rfl⟩
  intro h
  have h2 : (PyVal.plist [.plist [.pstr "home", .pint 200, .pstr "get", .pdict []]]) =
      .plist [.plist [.pstr "home", .pint 200, .pstr "get"]] := h
  simp at h2

/-- C5 (amended): prepare_configuration has no side effect on its input
other than extending length-3 list entries in place with the empty options
mapping: whenever no entry is a length-3 list, the input configuration
value and all its entries are left unmodified (it otherwise just returns
the normalized sequence or raises). -/
theorem C5_amended_no_mutation_without_len3_lists (cfg : PyVal)
    (h : configNoLen3ListEntries cfg = true) :
    prepare_configuration_post cfg = cfg :=
  prepare_configuration_post_id h

/-- C5 witness: an all-tuple configuration is left unmodified. -/
theorem C5_amended_witness :
    configNoLen3ListEntries
      (.plist [.ptuple [.pstr "home", .pint 200, .pstr "get"]]) = true ∧
    prepare_configuration_post
        (.plist [.ptuple [.pstr "home", .pint 200, .pstr "get"]]) =
      .plist [.ptuple [.pstr "home", .pint 200, .pstr "get"]] :=
  ⟨rfl, C5_amended_no_mutation_without_len3_lists _ rfl⟩

/-- C6: for every configuration that passes validation, the returned confs
are the input entries in their original order, each length-3 entry extended
with an implicit empty options mapping and each length-4 entry unchanged
(normalize_entry), and the returned sequence is non-empty. -/
theorem C6_normalized_entries_in_order (cfg : PyVal) (confs : List PyVal)
    (h : prepare_configuration cfg = .ok confs) :
    isSequence cfg = true ∧ confs = (pyElems cfg).map normalize_entry ∧
      confs ≠ [] :=
  prepare_configuration_ok_map h

/-- C6 witness: a two-entry configuration (one length-3, one length-4)
returns in order, with the length-3 entry extended. -/
theorem C6_witness :
    prepare_configuration
        (.plist [.ptuple [.pstr "home", .pint 200, .pstr "get"],
                 .ptuple [.pstr "about", .pint 404, .pstr "post",
                   .pdict [("url_kwargs", .pdict [])]]]) =
      .ok [.ptuple [.pstr "home", .pint 200, .pstr "get", .pdict []],
           .ptuple [.pstr "about", .pint 404, .pstr "post",
             .pdict [("url_kwargs", .pdict [])]]] ∧
    isSequence (PyVal.plist [.ptuple [.pstr "home", .pint 200, .pstr "get"],
        .ptuple [.pstr "about", .pint 404, .pstr "post",
          .pdict [("url_kwargs", .pdict [])]]]) = true ∧
    [PyVal.ptuple [.pstr "home", .pint 200, .pstr "get", .pdict []],
     .ptuple [.pstr "about", .pint 404, .pstr "post",
       .pdict [("url_kwargs", .pdict [])]]] =
      (pyElems (.plist [.ptuple [.pstr "home", .pint 200, .pstr "get"],
        .ptuple [.pstr "about", .pint 404, .pstr "post",
          .pdict [("url_kwargs", .pdict [])]]])).map normalize_entry := by
  refine ⟨rfl, ?_, ?_⟩
  · exact (C6_normalized_entries_in_order
      (.plist [.ptuple [.pstr "home", .pint 200, .pstr "get"],
               .ptuple [.pstr "about", .pint 404, .pstr "post",
                 .pdict [("url_kwargs", .pdict [])]]])
      [.ptuple [.pstr "home", .pint 200, .pstr "get", .pdict []],
       .ptuple [.pstr "about", .pint 404, .pstr "post",
         .pdict [("url_kwargs", .pdict [])]]] rfl).1
  · exact (C6_normalized_entries_in_order
      (.plist [.ptuple [.pstr "home", .pint 200, .pstr "get"],
               .ptuple [.pstr "about", .pint 404, .pstr "post",
                 .pdict [("url_kwargs", .pdict [])]]])
      [.ptuple [.pstr "home", .pint 200, .pstr "get", .pdict []],
       .ptuple [.pstr "about", .pint 404, .pstr "post",
         .pdict [("url_kwargs", .pdict [])]]] rfl).2.1

/-- C8: the class hook does not run for a class none of whose bases is an
instance of the metaclass (the base class itself, such as SmokeTestCase
deriving the django TestCase): no test methods, generated or failsafe, are
attached, whatever the declared configuration. -/
theorem C8_hook_skips_base_class (bases : List BaseCls) (cfg : PyVal)
    (uuidAt : Nat → String)
    (h : bases.any (fun b => b.isMetaInstance) = false) :
    GenerateTestMethodsMeta_new bases cfg uuidAt = .ok [] := by
  simp [GenerateTestMethodsMeta_new, h]

/-- C8 witness: SmokeTestCase itself (bases = django TestCase,
TESTS_CONFIGURATION = None) gets no methods attached even though its
configuration would fail validation. -/
theorem C8_witness :
    GenerateTestMethodsMeta_new SmokeTestCase_bases
      SmokeTestCase_TESTS_CONFIGURATION (fun _ => "") = .ok [] :=
  C8_hook_skips_base_class SmokeTestCase_bases SmokeTestCase_TESTS_CONFIGURATION
    (fun _ => "") rfl

/-- C10: for every 4-element entry (tuple or list) whose options mapping
contains an unrecognized key, validation raises immediately with only the
unsupported-keys message (plus the documentation link): the raised message
is independent of the url, status and method fields, so mistyped required
fields or an unrecognized method of the same entry never appear in it. -/
theorem C10_unsupported_keys_short_circuit (u s m entry : PyVal)
    (kvs : List (String × PyVal))
    (hshape : entry = .ptuple [u, s, m, .pdict kvs] ∨
      entry = .plist [u, s, m, .pdict kvs])
    (hbad : unknown_keys kvs ≠ []) :
    prepare_configuration (.plist [entry]) =
      .error (.improperlyConfigured (append_doc_link
        (UNSUPPORTED_CONFIGURATION_KEY_MSG
          (String.intercalate ", " (unknown_keys kvs))))) := by
  rcases hshape with rfl | rfl
  · apply prepare_single_entry_error
    have h34 : pyGetItem (.ptuple [u, s, m, .pdict kvs]) 3 = .ok (.pdict kvs) := rfl
    simp [prepareEntry, pyLen, h34, hbad]
  · apply prepare_single_entry_error
    have h34 : pyGetItem (.plist [u, s, m, .pdict kvs]) 3 = .ok (.pdict kvs) := rfl
    simp [prepareEntry, pyLen, h34, hbad]

/-- C10 witness: an entry with a mistyped status, an unknown method and the
bogus option key fails with only the bogus-key message. -/
theorem C10_witness :
    prepare_configuration
        (.plist [.ptuple [.pstr "home", .pstr "oops", .pstr "XYZ",
          .pdict [("bogus", .pint 1)]]]) =
      .error (.improperlyConfigured (append_doc_link
        (UNSUPPORTED_CONFIGURATION_KEY_MSG "bogus"))) := by
  have h := C10_unsupported_keys_short_circuit (.pstr "home") (.pstr "oops")
    (.pstr "XYZ") _ [("bogus", .pint 1)] (Or.inl rfl) (by decide)
  simpa using h

/-- C9: the fixed allowed HTTP method set contains the misspelling detete
and not delete: every entry whose method lower-cases to "delete" fails
validation with the unknown-http-method message, while an entry whose
method is "detete" passes the method check (and validation). -/
theorem C9_detete_not_delete (m u : String) (k : Int)
    (hm : pyLower m = "delete") :
    HTTP_METHODS.contains "delete" = false ∧
    HTTP_METHODS.contains "detete" = true ∧
    prepare_configuration (.plist [.ptuple [.pstr u, .pint k, .pstr m]]) =
      .error (.improperlyConfigured
        (UNKNOWN_HTTP_METHOD_MSG m ++ "\n" ++ LINK_TO_DOCUMENTATION)) ∧
    prepare_configuration (.plist [.ptuple [.pstr u, .pint k, .pstr "detete"]]) =
      .ok [.ptuple [.pstr u, .pint k, .pstr "detete", .pdict []]] := by
  refine ⟨rfl, rfl, ?_, ?_⟩
  · apply prepare_single_entry_error
    rw [prepareEntry_tuple3]
    have herr : entry_type_errors [.pstr u, .pint k, .pstr m, .pdict []] false =
        [UNKNOWN_HTTP_METHOD_MSG m] := by
      have hdel : ("delete" ∈ HTTP_METHODS) = False := by simp [HTTP_METHODS]
      simp [entry_type_errors, required_param_errors_cons,
        http_method_errors_cons, isString, isInt, optional_param_errors, hm,
        hdel]
    rw [checkEntry_tuple_error_of_ne (by rw [herr]; simp)]
    rw [herr]
    rfl
  · have hok : prepareEntry (.ptuple [.pstr u, .pint k, .pstr "detete"]) =
        .ok (.ptuple [.pstr u, .pint k, .pstr "detete", .pdict []]) := by
      rw [prepareEntry_tuple3]
      have hdet : ("detete" ∈ HTTP_METHODS) := by simp [HTTP_METHODS]
      have herr : entry_type_errors
          [.pstr u, .pint k, .pstr "detete", .pdict []] false = [] := by
        simp [entry_type_errors, required_param_errors_cons,
          http_method_errors_cons, isString, isInt, optional_param_errors,
          pyLower, hdet]
      simp [checkEntry, herr]
    simp [prepare_configuration, prepareLoop, hok]

/-- C9 witness: "DELETE" (upper case) fails with the unknown-http-method
message while "detete" passes. -/
theorem C9_witness :
    prepare_configuration
        (.plist [.ptuple [.pstr "home", .pint 200, .pstr "DELETE"]]) =
      .error (.improperlyConfigured
        (UNKNOWN_HTTP_METHOD_MSG "DELETE" ++ "\n" ++ LINK_TO_DOCUMENTATION)) ∧
    prepare_configuration
        (.plist [.ptuple [.pstr "home", .pint 200, .pstr "detete"]]) =
      .ok [.ptuple [.pstr "home", .pint 200, .pstr "detete", .pdict []]] :=
  ⟨(C9_detete_not_delete "DELETE" "home" 200 rfl).2.2.1,
   (C9_detete_not_delete "DELETE" "home" 200 rfl).2.2.2⟩

/-- C2: for every configuration that fails validation, class construction
attaches exactly one generated method, named FAIL_METHOD_NAME
(test_fail_cause_bad_configuration), holding the failsafe that
unconditionally calls self.fail with the formatted traceback (so its
failure message contains the original error detail as a substring), and
the configuration error never propagates out of class construction (the
result is a normal class, not an exception). -/
theorem C2_invalid_config_failsafe (bases : List BaseCls) (cfg : PyVal)
    (uuidAt : Nat → String) (e : PyErr)
    (hmeta : bases.any (fun b => b.isMetaInstance) = true)
    (herr : prepare_configuration cfg = .error e) :
    GenerateTestMethodsMeta_new bases cfg uuidAt =
      .ok [(FAIL_METHOD_NAME, .fail_method (format_exc e))] ∧
    generate_fail_test_method (format_exc e) =
      (fun _self => Outcome.failed (format_exc e)) ∧
    format_exc e = format_exc_prefix e ++ pyErrMsg e ++ "\n" := by
  refine ⟨?_, rfl, rfl⟩
  simp [GenerateTestMethodsMeta_new, hmeta, herr]

/-- C2 witness: the missing (None) configuration of a metaclass subclass
yields exactly the failsafe method. -/
theorem C2_witness :
    GenerateTestMethodsMeta_new [⟨true⟩] .pnone (fun _ => "") =
      .ok [(FAIL_METHOD_NAME, .fail_method (format_exc (.improperlyConfigured
        (append_doc_link INCORRECT_TEST_CONFIGURATION_MSG))))] :=
  (C2_invalid_config_failsafe [⟨true⟩] .pnone (fun _ => "")
    (.improperlyConfigured (append_doc_link INCORRECT_TEST_CONFIGURATION_MSG))
    rfl rfl).1

/-- C4: for every entry (of valid length and with recognized option keys)
where the status is not an integer, the url or method is not string-like,
or the method is a string outside the allowed set under case-insensitive
comparison, validation fails and accumulates all such problems for that
entry into one newline-joined error message whose final line is the
documentation link; each present problem contributes its line. -/
theorem C4_type_errors_accumulate (u s m entry : PyVal)
    (hshape : entry = .ptuple [u, s, m] ∨ entry = .plist [u, s, m] ∨
      (∃ kvs, (entry = .ptuple [u, s, m, .pdict kvs] ∨
        entry = .plist [u, s, m, .pdict kvs]) ∧ unknown_keys kvs = []))
    (hbad : isString u = false ∨ isInt s = false ∨ isString m = false ∨
      (∃ ms, m = .pstr ms ∧ HTTP_METHODS.contains (pyLower ms) = false)) :
    prepare_configuration (.plist [entry]) =
      .error (.improperlyConfigured (String.intercalate "\n"
        (entry_error_lines entry ++ [LINK_TO_DOCUMENTATION]))) ∧
    entry_error_lines entry ≠ [] ∧
    (isString u = false → requiredParamLine 0 u ∈ entry_error_lines entry) ∧
    (isInt s = false → requiredParamLine 1 s ∈ entry_error_lines entry) ∧
    (isString m = false → requiredParamLine 2 m ∈ entry_error_lines entry) ∧
    (∀ ms, m = .pstr ms → HTTP_METHODS.contains (pyLower ms) = false →
      UNKNOWN_HTTP_METHOD_MSG ms ∈ entry_error_lines entry) := by
  rcases hshape with rfl | rfl | ⟨kvs, rfl | rfl, hk⟩
  · obtain ⟨f0, f1, f2, f3⟩ := entry_type_errors_mem_facts u s m [.pdict []] false
    have hEL : entry_error_lines (.ptuple [u, s, m]) =
        entry_type_errors [u, s, m, .pdict []] false := by
      simp [entry_error_lines]
    have hne : entry_type_errors [u, s, m, .pdict []] false ≠ [] := by
      rcases hbad with h | h | h | ⟨ms, rfl, h⟩
      · exact List.ne_nil_of_mem (f0 h)
      · exact List.ne_nil_of_mem (f1 h)
      · exact List.ne_nil_of_mem (f2 h)
      · exact List.ne_nil_of_mem (f3 ms rfl h)
    refine ⟨?_, by rw [hEL]; exact hne, by rw [hEL]; exact f0,
      by rw [hEL]; exact f1, by rw [hEL]; exact f2, by rw [hEL]; exact f3⟩
    apply prepare_single_entry_error
    rw [prepareEntry_tuple3, checkEntry_tuple_error_of_ne hne, hEL]
  · obtain ⟨f0, f1, f2, f3⟩ := entry_type_errors_mem_facts u s m [.pdict []] false
    have hEL : entry_error_lines (.plist [u, s, m]) =
        entry_type_errors [u, s, m, .pdict []] false := by
      simp [entry_error_lines]
    have hne : entry_type_errors [u, s, m, .pdict []] false ≠ [] := by
      rcases hbad with h | h | h | ⟨ms, rfl, h⟩
      · exact List.ne_nil_of_mem (f0 h)
      · exact List.ne_nil_of_mem (f1 h)
      · exact List.ne_nil_of_mem (f2 h)
      · exact List.ne_nil_of_mem (f3 ms rfl h)
    refine ⟨?_, by rw [hEL]; exact hne, by rw [hEL]; exact f0,
      by rw [hEL]; exact f1, by rw [hEL]; exact f2, by rw [hEL]; exact f3⟩
    apply prepare_single_entry_error
    rw [prepareEntry_list3, checkEntry_list_error_of_ne hne, hEL]
  · obtain ⟨f0, f1, f2, f3⟩ := entry_type_errors_mem_facts u s m [.pdict kvs] true
    have hEL : entry_error_lines (.ptuple [u, s, m, .pdict kvs]) =
        entry_type_errors [u, s, m, .pdict kvs] true := by
      simp [entry_error_lines]
    have hne : entry_type_errors [u, s, m, .pdict kvs] true ≠ [] := by
      rcases hbad with h | h | h | ⟨ms, rfl, h⟩
      · exact List.ne_nil_of_mem (f0 h)
      · exact List.ne_nil_of_mem (f1 h)
      · exact List.ne_nil_of_mem (f2 h)
      · exact List.ne_nil_of_mem (f3 ms rfl h)
    refine ⟨?_, by rw [hEL]; exact hne, by rw [hEL]; exact f0,
      by rw [hEL]; exact f1, by rw [hEL]; exact f2, by rw [hEL]; exact f3⟩
    apply prepare_single_entry_error
    rw [prepareEntry_tuple4 u s m kvs hk, checkEntry_tuple_error_of_ne hne, hEL]
  · obtain ⟨f0, f1, f2, f3⟩ := entry_type_errors_mem_facts u s m [.pdict kvs] true
    have hEL : entry_error_lines (.plist [u, s, m, .pdict kvs]) =
        entry_type_errors [u, s, m, .pdict kvs] true := by
      simp [entry_error_lines]
    have hne : entry_type_errors [u, s, m, .pdict kvs] true ≠ [] := by
      rcases hbad with h | h | h | ⟨ms, rfl, h⟩
      · exact List.ne_nil_of_mem (f0 h)
      · exact List.ne_nil_of_mem (f1 h)
      · exact List.ne_nil_of_mem (f2 h)
      · exact List.ne_nil_of_mem (f3 ms rfl h)
    refine ⟨?_, by rw [hEL]; exact hne, by rw [hEL]; exact f0,
      by rw [hEL]; exact f1, by rw [hEL]; exact f2, by rw [hEL]; exact f3⟩
    apply prepare_single_entry_error
    rw [prepareEntry_list4 u s m kvs hk, checkEntry_list_error_of_ne hne, hEL]

/-- C4 witness: an entry with int url, string status and unknown string
method accumulates all three problem lines before the final link line. -/
theorem C4_witness :
    prepare_configuration
        (.plist [.ptuple [.pint 7, .pstr "x", .pstr "XYZ"]]) =
      .error (.improperlyConfigured (String.intercalate "\n"
        (entry_error_lines (.ptuple [.pint 7, .pstr "x", .pstr "XYZ"]) ++
          [LINK_TO_DOCUMENTATION]))) ∧
    requiredParamLine 0 (.pint 7) ∈
      entry_error_lines (.ptuple [.pint 7, .pstr "x", .pstr "XYZ"]) ∧
    requiredParamLine 1 (.pstr "x") ∈
      entry_error_lines (.ptuple [.pint 7, .pstr "x", .pstr "XYZ"]) ∧
    UNKNOWN_HTTP_METHOD_MSG "XYZ" ∈
      entry_error_lines (.ptuple [.pint 7, .pstr "x", .pstr "XYZ"]) := by
  have h := C4_type_errors_accumulate (.pint 7) (.pstr "x") (.pstr "XYZ")
    (.ptuple [.pint 7, .pstr "x", .pstr "XYZ"]) (Or.inl rfl)
    (Or.inl rfl)
  exact ⟨h.1, h.2.2.1 rfl, h.2.2.2.1 rfl, h.2.2.2.2.2 "XYZ" rfl (by decide)⟩

/-- C7: the generated test-method name is exactly the test_smoke template
over the slugified urlname (leading/trailing slashes stripped, remaining
colons and slashes replaced by underscores), the lower-cased method, the
status and the uuid hex suffix; names built over the same urlname, method
and status with distinct suffixes are distinct. -/
theorem C7_test_name_structure (u m : String) (s : PyVal) (uuid1 : String) :
    prepare_test_name u m s uuid1 =
      "test_smoke_" ++ slug_spec u ++ "_" ++ pyLower m ++ "_" ++ pyStr s ++
        "_" ++ uuid1 ∧
    (∀ uuid2, uuid1 ≠ uuid2 →
      prepare_test_name u m s uuid1 ≠ prepare_test_name u m s uuid2) := by
  constructor
  · simp only [prepare_test_name, test_name_stem, prepared_url_eq_slug_spec,
      String.append_assoc]
  · intro u2 hne he
    simp only [prepare_test_name] at he
    exact hne (append_left_cancel_str he)

/-- C7 witness: a namespaced url with surrounding slashes, upper-case
method and two distinct suffixes. -/
theorem C7_witness :
    prepare_test_name "/ns:home/sub/" "GET" (.pint 200) "aaaa" =
      "test_smoke_" ++ slug_spec "/ns:home/sub/" ++ "_" ++ pyLower "GET" ++
        "_" ++ pyStr (.pint 200) ++ "_" ++ "aaaa" ∧
    prepare_test_name "/ns:home/sub/" "GET" (.pint 200) "aaaa" ≠
      prepare_test_name "/ns:home/sub/" "GET" (.pint 200) "bbbb" :=
  ⟨(C7_test_name_structure "/ns:home/sub/" "GET" (.pint 200) "aaaa").1,
   (C7_test_name_structure "/ns:home/sub/" "GET" (.pint 200) "aaaa").2 "bbbb"
     (by decide)⟩

/-- C1: for every configuration that passes validation, with bases making
the hook run, class construction completes normally and attaches exactly one
generated test method per configuration entry; given that the uuid hex
suffixes drawn for the class are pairwise distinct 32-character strings (as
uuid4().hex yields), the attached names are pairwise distinct, every
attached method is a generated smoke test method, and no attached method is
the failsafe (none bears FAIL_METHOD_NAME). -/
theorem C1_valid_config_attaches_n_methods (bases : List BaseCls)
    (cfg : PyVal) (uuidAt : Nat → String) (confs : List PyVal)
    (hmeta : bases.any (fun b => b.isMetaInstance) = true)
    (hok : prepare_configuration cfg = .ok confs)
    (h1 : ∀ j k, j < confs.length → k < confs.length → j ≠ k →
      uuidAt j ≠ uuidAt k)
    (h2 : ∀ j, j < confs.length → (uuidAt j).length = 32) :
    attachOk (GenerateTestMethodsMeta_new bases cfg uuidAt) = true ∧
    (attachedMethods (GenerateTestMethodsMeta_new bases cfg uuidAt)).length =
      (pyElems cfg).length ∧
    ((attachedMethods (GenerateTestMethodsMeta_new bases cfg uuidAt)).map
      Prod.fst).Nodup ∧
    (attachedMethods (GenerateTestMethodsMeta_new bases cfg uuidAt)).all
      (fun nm => nm.2.isSmoke && (nm.1 != FAIL_METHOD_NAME)) = true := by
  have hshape := prepare_configuration_ok_shape hok
  have hmap := prepare_configuration_ok_map hok
  have hnew : GenerateTestMethodsMeta_new bases cfg uuidAt =
      .ok (genList confs 0 uuidAt) := by
    simp [GenerateTestMethodsMeta_new, hmeta, hok, genLoop_eq_genList hshape]
  rw [hnew]
  refine ⟨rfl, ?_, ?_, ?_⟩
  · have hlen : confs.length = (pyElems cfg).length := by
      rw [hmap.2.1, List.length_map]
    simp [attachedMethods, genList_length, hlen]
  · simpa [attachedMethods] using genList_names_nodup uuidAt h1 h2
  · have hall := genList_all_smoke hshape 0 uuidAt
    simp only [attachedMethods]
    rw [List.all_eq_true]
    intro nm hnm
    obtain ⟨hs, hn⟩ := hall nm hnm
    simp [hs, bne_iff_ne, hn]

/-- C1 witness: a two-entry valid configuration, with two distinct
32-character hex suffixes, attaches exactly two distinctly named smoke
methods and no failsafe. -/
theorem C1_witness :
    attachOk (GenerateTestMethodsMeta_new [⟨true⟩]
      (.plist [.ptuple [.pstr "home", .pint 200, .pstr "get"],
               .ptuple [.pstr "home", .pint 200, .pstr "get"]])
      (fun j => if j = 0 then "aaaaaaaaaaaaaaaaaaaaaaaaaaaaaaaa"
        else "bbbbbbbbbbbbbbbbbbbbbbbbbbbbbbbb")) = true ∧
    (attachedMethods (GenerateTestMethodsMeta_new [⟨true⟩]
      (.plist [.ptuple [.pstr "home", .pint 200, .pstr "get"],
               .ptuple [.pstr "home", .pint 200, .pstr "get"]])
      (fun j => if j = 0 then "aaaaaaaaaaaaaaaaaaaaaaaaaaaaaaaa"
        else "bbbbbbbbbbbbbbbbbbbbbbbbbbbbbbbb"))).length =
      (pyElems (.plist [.ptuple [.pstr "home", .pint 200, .pstr "get"],
               .ptuple [.pstr "home", .pint 200, .pstr "get"]])).length ∧
    ((attachedMethods (GenerateTestMethodsMeta_new [⟨true⟩]
      (.plist [.ptuple [.pstr "home", .pint 200, .pstr "get"],
               .ptuple [.pstr "home", .pint 200, .pstr "get"]])
      (fun j => if j = 0 then "aaaaaaaaaaaaaaaaaaaaaaaaaaaaaaaa"
        else "bbbbbbbbbbbbbbbbbbbbbbbbbbbbbbbb"))).map Prod.fst).Nodup ∧
    (attachedMethods (GenerateTestMethodsMeta_new [⟨true⟩]
      (.plist [.ptuple [.pstr "home", .pint 200, .pstr "get"],
               .ptuple [.pstr "home", .pint 200, .pstr "get"]])
      (fun j => if j = 0 then "aaaaaaaaaaaaaaaaaaaaaaaaaaaaaaaa"
        else "bbbbbbbbbbbbbbbbbbbbbbbbbbbbbbbb"))).all
      (fun nm => nm.2.isSmoke && (nm.1 != FAIL_METHOD_NAME)) = true := by
  have h := C1_valid_config_attaches_n_methods [⟨true⟩]
    (.plist [.ptuple [.pstr "home", .pint 200, .pstr "get"],
             .ptuple [.pstr "home", .pint 200, .pstr "get"]])
    (fun j => if j = 0 then "aaaaaaaaaaaaaaaaaaaaaaaaaaaaaaaa"
      else "bbbbbbbbbbbbbbbbbbbbbbbbbbbbbbbb")
    [.ptuple [.pstr "home", .pint 200, .pstr "get", .pdict []],
     .ptuple [.pstr "home", .pint 200, .pstr "get", .pdict []]]
    rfl rfl
    (by
      intro j k hj hk hne
      simp only [List.length_cons, List.length_nil] at hj hk
      have hcase : (j = 0 ∧ k = 1) ∨ (j = 1 ∧ k = 0) := by omega
      rcases hcase with ⟨rfl, rfl⟩ | ⟨rfl, rfl⟩ <;> decide)
    (by
      intro j hj
      simp only [List.length_cons, List.length_nil] at hj
      have hcase : j = 0 ∨ j = 1 := by omega
      rcases hcase with rfl | rfl <;> rfl)
  exact ⟨h.1, h.2.1, h.2.2.1, h.2.2.2⟩
